import Mathlib

/-!
Verification of the `Result` handle and accessor surface of a Rust binding
to the native PostgreSQL client library (libpq).

The wrapper code under verification lives in `src/result/mod.rs` and
`src/connection/_single_row_mode.rs`.  Every wrapper method is a single
delegating call into the native library followed by a translation of the
native return convention (null pointer, `-1`, or a zero/one status code)
into an `Option` / `Result` value.

Embedding conventions:
* Rust `usize` is `Nat`; Rust `i32` is `Int` (with the `as i32` / `as usize`
  casts made explicit as `usizeToI32` / `i32AsUsize`).
* A C string pointer that may be null is `Option String` (`none` = null).
* A Rust panic is `none` in an `Option`-valued embedding.
* Where a claim is only about the wrapper's translation of a native return
  value (out-of-memory failures, name lookup), the native return value is an
  explicit argument of the embedded wrapper function; where a claim needs the
  native data (cells, status, error message), the native result object is
  modelled concretely from the native library's documented contract.
-/

namespace Libpq

/-- Two to the thirty-second power, the modulus of `u32`/`i32` truncation. -/
def two32 : Nat := 4294967296

/-- Two to the thirty-first power, the first value not representable in `i32`. -/
def two31 : Nat := 2147483648

/-- Two to the sixty-fourth power, the modulus of 64-bit `usize`. -/
def two64 : Nat := 18446744073709551616

/-- Rust `n as i32` applied to a `usize` value: keep the low 32 bits and
reinterpret them as a signed two's-complement 32-bit integer. -/
def usizeToI32 (n : Nat) : Int :=
  if n % two32 < two31 then ((n % two32 : Nat) : Int)
  else ((n % two32 : Nat) : Int) - (two32 : Int)

/-- Rust `n as usize` applied to an `i32` value on a 64-bit platform:
sign-extend to 64 bits and reinterpret as unsigned. -/
def i32AsUsize (n : Int) : Nat :=
  (n.emod (two64 : Int)).toNat

/-- Modelled from the spec: the `Connection` handle type (its module is not
part of the examined sources beyond `_single_row_mode.rs`); it owns one
native connection resource and is opaque to the `Result` operations. -/
structure Connection where
  id : Nat

/-- Modelled from the spec: the native result-set resource (`PGresult`) owned
by a `Result` handle, holding "tuples, field descriptors, or a command
status".  A cell is `none` when the stored field is SQL null. -/
structure PGresult where
  status : Int
  errorMessage : String
  errorFields : Int → Option String
  tuples : List (List (Option String))

/-- Modelled from the spec: native `PQmakeEmptyPGresult` constructs an empty
result that carries the given status (the connection is used only for
allocation bookkeeping). -/
def PQmakeEmptyPGresult (_conn : Connection) (status : Int) : PGresult :=
  { status := status
    errorMessage := ""
    errorFields := fun _ => none
    tuples := [] }

/-- Modelled from the spec: native `PQresultStatus` returns the stored
status code. -/
def PQresultStatus (r : PGresult) : Int :=
  r.status

/-- Modelled from the spec: native `PQresultErrorMessage` returns the error
message, an empty string (never a null pointer) when there was no error. -/
def PQresultErrorMessage (r : PGresult) : String :=
  r.errorMessage

/-- Modelled from the spec: native `PQresultErrorField` returns the stored
field text, or a null pointer (`none`) when the field is absent. -/
def PQresultErrorField (r : PGresult) (field : Int) : Option String :=
  r.errorFields field

/-- Modelled from the spec: native `PQgetvalue` returns, for an in-range
cell, a pointer to the cell text, where a SQL null cell yields an empty
string; out of range it returns a null pointer (`none`). -/
def PQgetvalue (r : PGresult) (row column : Int) : Option String :=
  if 0 ≤ row ∧ 0 ≤ column then
    match r.tuples[row.toNat]? with
    | none => none
    | some tup =>
      match tup[column.toNat]? with
      | none => none
      | some cell => some (cell.getD "")
  else
    none

/-- Modelled from the spec: native `PQgetisnull` returns `1` when the cell is
SQL null and `0` when it holds a value; out-of-range cells count as null. -/
def PQgetisnull (r : PGresult) (row column : Int) : Int :=
  if 0 ≤ row ∧ 0 ≤ column then
    match r.tuples[row.toNat]? with
    | none => 1
    | some tup =>
      match tup[column.toNat]? with
      | none => 1
      | some cell => if cell.isNone then 1 else 0
  else
    1

/-- Modelled from the spec: `crate::ffi::to_string` converts a C string
pointer into an owned string.  The claim-relevant call sites only reach it
with a non-null pointer; the model totalises the null case to the empty
string. -/
def ffiToString (raw : Option String) : String :=
  raw.getD ""

/-- Modelled from the spec: `crate::ffi::to_option_string` maps an
"empty/absent" native message to an absent value: a null pointer or an empty
string becomes `none`, any other string becomes `some` of its text. -/
def ffiToOptionString (raw : Option String) : Option String :=
  match raw with
  | none => none
  | some s => if s.isEmpty then none else some s

/-- Modelled from the spec: the `crate::Status` enum mirroring the native
`ExecStatusType` result status codes. -/
inductive Status
  | empty_query
  | command_ok
  | tuples_ok
  | copy_out
  | copy_in
  | bad_response
  | nonfatal_error
  | fatal_error
  | copy_both
  | single_tuple
deriving DecidableEq

/-- Modelled from the spec: conversion of `crate::Status` into the native
`ExecStatusType` code (`status.into()`). -/
def Status.toExec : Status → Int
  | .empty_query => 0
  | .command_ok => 1
  | .tuples_ok => 2
  | .copy_out => 3
  | .copy_in => 4
  | .bad_response => 5
  | .nonfatal_error => 6
  | .fatal_error => 7
  | .copy_both => 8
  | .single_tuple => 9

/-- Modelled from the spec: conversion of a native `ExecStatusType` code into
`crate::Status` (`.into()` on the value returned by `PQresultStatus`). -/
def Status.ofExec (n : Int) : Status :=
  if n = 0 then .empty_query
  else if n = 1 then .command_ok
  else if n = 2 then .tuples_ok
  else if n = 3 then .copy_out
  else if n = 4 then .copy_in
  else if n = 5 then .bad_response
  else if n = 6 then .nonfatal_error
  else if n = 7 then .fatal_error
  else if n = 8 then .copy_both
  else .single_tuple

/-- Modelled from the spec: the `crate::result::ErrorField` identifier passed
to `PQresultErrorField`; it converts into a native field code. -/
abbrev ErrorField : Type := Int

/-- Modelled from the spec: an `Attribute` is a descriptor value (name, type,
size) passed by reference into result-construction calls. -/
structure Attribute where
  name : String
  typ : Int
  size : Int

/-- Modelled from the spec: `crate::errors::Error`; the only failure value
produced by `Connection::set_single_row_mode` is `Unknow`, which carries no
payload. -/
inductive Error
  | Unknow
deriving DecidableEq

/-- The `Result` handle: owns one native result-set resource
(`struct Result { result: *mut pq_sys::PGresult }`). -/
structure Result where
  result : PGresult

/-- Embeds `Result::new`: constructs an empty `Result` with the given status by
delegating to `PQmakeEmptyPGresult(conn.into(), status.into())`. -/
def Result.new (conn : Connection) (status : Status) : Result :=
  ⟨PQmakeEmptyPGresult conn status.toExec⟩

/-- Embeds `Result::status`: `PQresultStatus(self.into()).into()`. -/
def Result.status (r : Result) : Status :=
  Status.ofExec (PQresultStatus r.result)

/-- Embeds `Result::error_message`:
`to_option_string(PQresultErrorMessage(self.into()))`; the native message
pointer is never null. -/
def Result.error_message (r : Result) : Option String :=
  ffiToOptionString (some (PQresultErrorMessage r.result))

/-- Embeds `Result::error_field`:
`to_option_string(PQresultErrorField(self.into(), field.into()))`. -/
def Result.error_field (r : Result) (field : ErrorField) : Option String :=
  ffiToOptionString (PQresultErrorField r.result field)

/-- Embeds `Result::is_null`:
`PQgetisnull(self.into(), row as i32, column as i32) == 1`. -/
def Result.is_null (r : Result) (row column : Nat) : Bool :=
  PQgetisnull r.result (usizeToI32 row) (usizeToI32 column) == 1

/-- Embeds `Result::value`: reads the raw cell text with
`PQgetvalue(self.into(), row as i32, column as i32)`, converts it with
`to_string`, and returns `None` when the text is empty and the cell is null,
`Some(text)` otherwise. -/
def Result.value (r : Result) (row column : Nat) : Option String :=
  let str := ffiToString (PQgetvalue r.result (usizeToI32 row) (usizeToI32 column))
  if str.isEmpty && r.is_null row column then none else some str

/-- Embeds `Result::field_number`: delegates the name lookup to
`PQfnumber(self.into(), cstr!(name))` and translates the returned `i32`
(`nativeNumber`): `-1` becomes `None`, anything else becomes
`Some(number as usize)`. -/
def Result.field_number (_r : Result) (_name : String) (nativeNumber : Int) :
    Option Nat :=
  if nativeNumber = -1 then none else some (i32AsUsize nativeNumber)

/-- Embeds `Result::field_mod`: translates the `i32` returned by
`PQfmod(self.into(), column as i32)` (`nativeRaw`): a negative value becomes
`None`, anything else `Some(raw)`. -/
def Result.field_mod (_r : Result) (_column : Nat) (nativeRaw : Int) :
    Option Int :=
  if nativeRaw < 0 then none else some nativeRaw

/-- Embeds `Result::field_size`: translates the `i32` returned by
`PQfsize(self.into(), column as i32)` (`nativeRaw`): a negative value
(variable-length type) becomes `None`, anything else `Some(raw as usize)`. -/
def Result.field_size (_r : Result) (_column : Nat) (nativeRaw : Int) :
    Option Nat :=
  if nativeRaw < 0 then none else some (i32AsUsize nativeRaw)

/-- Embeds `Result::copy`: delegates to `PQcopyResult(self.into(), flags)` and
translates the returned pointer (`nativeRaw`): a null pointer becomes
`Err(())`, otherwise the pointer is wrapped into a new owned `Result`. -/
def Result.copy (_r : Result) (_flags : Int) (nativeRaw : Option PGresult) :
    Except Unit Result :=
  match nativeRaw with
  | none => .error ()
  | some raw => .ok ⟨raw⟩

/-- Embeds `Result::set_attrs`: passes the attribute array and
`attributes.len() as i32` to `PQsetResultAttrs` and translates the returned
status code (`nativeSuccess`): `0` becomes `Err(())`, anything else
`Ok(())`. -/
def Result.set_attrs (_r : Result) (_attributes : List Attribute)
    (nativeSuccess : Int) : Except Unit Unit :=
  if nativeSuccess = 0 then .error () else .ok ()

/-- Rust `CString::new(v)` succeeds exactly when `v` has no interior NUL byte;
this tests for a NUL character in the string. -/
def hasInteriorNul (s : String) : Bool :=
  s.data.contains (Char.ofNat 0)

/-- The `(v, len)` pair `Result::set_value` hands to `PQsetvalue`: a present
value is converted with `CString::new(v).unwrap()` — `none` here is the
panic of the `unwrap` on an interior NUL — and paired with `v.len() as i32`;
an absent value is passed as a null pointer with length `-1`. -/
def set_value_args (value : Option String) : Option (Option String × Int) :=
  match value with
  | some v =>
    if hasInteriorNul v then none
    else some (some v, usizeToI32 v.length)
  | none => some (none, -1)

/-- Embeds `Result::set_value`: builds the `(v, len)` pair (panicking — `none` — on
an interior NUL in a present value), calls
`PQsetvalue(self.into(), tuple as i32, field as i32, v, len)`, and
translates the returned status code (`nativeSuccess`): `0` becomes
`Err(())`, anything else `Ok(())`. -/
def Result.set_value (_r : Result) (_tuple _field : Nat)
    (value : Option String) (nativeSuccess : Int) :
    Option (Except Unit Unit) :=
  (set_value_args value).map
    (fun _ => if nativeSuccess = 0 then Except.error () else Except.ok ())

/-- Modelled from the spec: `std::fs::File`, an opaque output stream. -/
def File : Type := Unit

/-- Embeds `Result::print`: the body is `unimplemented!()`, which panics
unconditionally (`none`) for every result and output file. -/
def Result.print (_r : Result) (_file : File) : Option Unit :=
  none

/-- Embeds `Connection::set_single_row_mode`: delegates to
`PQsetSingleRowMode(self.into())` and translates the returned status code
(`nativeSuccess`): `1` becomes `Ok(())`, anything else
`Err(Error::Unknow)`. -/
def Connection.set_single_row_mode (_c : Connection) (nativeSuccess : Int) :
    Except Error Unit :=
  if nativeSuccess = 1 then .ok () else .error .Unknow

/-- The native libpq entry points invoked by the wrapper methods. -/
inductive NativeFn
  | PQmakeEmptyPGresult
  | PQresultStatus
  | PQresultErrorMessage
  | PQresultErrorField
  | PQntuples
  | PQnfields
  | PQfname
  | PQfnumber
  | PQftable
  | PQftablecol
  | PQfformat
  | PQftype
  | PQfmod
  | PQfsize
  | PQbinaryTuples
  | PQgetvalue
  | PQgetisnull
  | PQgetlength
  | PQnparams
  | PQparamtype
  | PQcmdStatus
  | PQcmdTuples
  | PQoidValue
  | PQoidStatus
  | PQcopyResult
  | PQsetResultAttrs
  | PQsetvalue
  | PQresultAlloc
  | PQsetSingleRowMode
  | PQclear
deriving DecidableEq

/-- The methods of the `Result` handle (plus its `Drop` implementation). -/
inductive Method
  | new
  | status
  | error_message
  | error_field
  | ntuples
  | nfields
  | field_name
  | field_number
  | field_table
  | field_tablecol
  | field_format
  | field_type
  | field_mod
  | field_size
  | binary_tuples
  | value
  | is_null
  | length
  | nparams
  | param_type
  | print
  | cmd_status
  | cmd_tuples
  | oid_value
  | oid_status
  | copy
  | set_attrs
  | set_value
  | alloc
  | drop
deriving DecidableEq

/-- The native entry points each method's body can invoke, transliterated
from `src/result/mod.rs` in order of appearance (`value` may short-circuit
past `PQgetisnull`; `print` panics before reaching any native call). -/
def nativeCalls : Method → List NativeFn
  | .new => [.PQmakeEmptyPGresult]
  | .status => [.PQresultStatus]
  | .error_message => [.PQresultErrorMessage]
  | .error_field => [.PQresultErrorField]
  | .ntuples => [.PQntuples]
  | .nfields => [.PQnfields]
  | .field_name => [.PQfname]
  | .field_number => [.PQfnumber]
  | .field_table => [.PQftable]
  | .field_tablecol => [.PQftablecol]
  | .field_format => [.PQfformat]
  | .field_type => [.PQftype]
  | .field_mod => [.PQfmod]
  | .field_size => [.PQfsize]
  | .binary_tuples => [.PQbinaryTuples]
  | .value => [.PQgetvalue, .PQgetisnull]
  | .is_null => [.PQgetisnull]
  | .length => [.PQgetlength]
  | .nparams => [.PQnparams]
  | .param_type => [.PQparamtype]
  | .print => []
  | .cmd_status => [.PQcmdStatus]
  | .cmd_tuples => [.PQcmdTuples]
  | .oid_value => [.PQoidValue]
  | .oid_status => [.PQoidStatus]
  | .copy => [.PQcopyResult]
  | .set_attrs => [.PQsetResultAttrs]
  | .set_value => [.PQsetvalue]
  | .alloc => [.PQresultAlloc]
  | .drop => [.PQclear]

/-- All native calls a handle makes over its lifetime: the calls of the
method sequence the owner runs, followed by the calls of `Drop`. -/
def lifetimeCalls (ops : List Method) : List NativeFn :=
  ((ops ++ [Method.drop]).map nativeCalls).flatten

/-- A `usize` index below `2^31` is passed through the `as i32` cast
unchanged. -/
theorem usizeToI32_of_lt (n : Nat) (h : n < two31) : usizeToI32 n = (n : Int) := by
  unfold usizeToI32
  have h2 : n % two32 = n := Nat.mod_eq_of_lt (lt_trans h (by decide))
  rw [h2, if_pos h]

/-- A nonnegative `i32` below `2^64` is passed through the `as usize` cast
unchanged. -/
theorem i32AsUsize_eq_toNat (n : Int) (h0 : 0 ≤ n) (h : n < (two64 : Nat)) :
    i32AsUsize n = n.toNat := by
  unfold i32AsUsize
  exact congrArg Int.toNat (Int.emod_eq_of_lt h0 h)

/-- A concrete `Result` whose single row holds a present empty string, a
null cell, and a present nonempty string. -/
def sampleResult : Result :=
  ⟨{ status := 2
     errorMessage := ""
     errorFields := fun _ => none
     tuples := [[some "", none, some "x"]] }⟩

/-- A concrete `Result` carrying an error message and one present error
field. -/
def errResult : Result :=
  ⟨{ status := 7
     errorMessage := "boom"
     errorFields := fun f => if f = 67 then some "ERROR" else some ""
     tuples := [] }⟩

/-- Claim C1: for an in-range cell, `Result::value` returns `None` when the
cell is null and `Some` of the cell text otherwise, so a present empty
string yields `Some("")`, distinguished from the `None` of a null cell. -/
theorem value_absent_on_null (r : Result) (row column : Nat)
    (hrow : row < two31) (hcol : column < two31)
    (tup : List (Option String)) (htup : r.result.tuples[row]? = some tup)
    (cell : Option String) (hcell : tup[column]? = some cell) :
    (cell = none → Result.value r row column = none) ∧
    (∀ s : String, cell = some s → Result.value r row column = some s) := by
  have h1 : usizeToI32 row = (row : Int) := usizeToI32_of_lt row hrow
  have h2 : usizeToI32 column = (column : Int) := usizeToI32_of_lt column hcol
  constructor
  · intro hc
    subst hc
    simp [Result.value, Result.is_null, PQgetvalue, PQgetisnull, ffiToString,
      h1, h2, htup, hcell]
    decide
  · intro s hc
    subst hc
    simp [Result.value, Result.is_null, PQgetvalue, PQgetisnull, ffiToString,
      h1, h2, htup, hcell]

/-- Witness for C1 at a concrete result: the null cell yields `none`, the
present empty string yields `some ""`. -/
theorem value_absent_on_null_witness :
    Result.value sampleResult 0 1 = none ∧
    Result.value sampleResult 0 0 = some "" :=
  ⟨(value_absent_on_null sampleResult 0 1 (by decide) (by decide)
      [some "", none, some "x"] rfl none rfl).1 rfl,
   (value_absent_on_null sampleResult 0 0 (by decide) (by decide)
      [some "", none, some "x"] rfl (some "") rfl).2 "" rfl⟩

/-- Claim C2: an empty `Result` constructed with `Result::new(conn, status)`
round-trips the status: `status()` on it returns the given status. -/
theorem new_status_roundtrip (conn : Connection) (s : Status) :
    (Result.new conn s).status = s := by
  cases s <;> rfl

/-- Claim C9: `Result::print` unconditionally panics (`unimplemented!`) for
every result and output file, and its body reaches no native call, so it
never prints rows or column names. -/
theorem print_unimplemented :
    (∀ (r : Result) (f : File), Result.print r f = none) ∧
    nativeCalls Method.print = [] :=
  ⟨fun _ _ => rfl, rfl⟩

/-- Counterexample to claim C10 as stated: the index `2^32` is at or above
`2^31`, yet the wrapper's `as i32` cast passes it to the native library as
`0`, which is not negative. -/
theorem index_cast_counterexample :
    two31 ≤ two32 ∧ usizeToI32 two32 = 0 ∧ ¬ usizeToI32 two32 < 0 := by
  refine ⟨by decide, ?_, ?_⟩ <;> simp [usizeToI32, two32, two31]

/-- Claim C10 (amended): every `usize` index is passed to the native library
reduced modulo `2^32` and reinterpreted as a signed 32-bit integer — in
`i32` range, congruent to the index modulo `2^32`, and negative exactly when
the index's low 32 bits are at or above `2^31` — with no range check or
rejection in the wrapper, as the per-cell accessor `is_null` shows. -/
theorem index_cast_amended :
    (∀ n : Nat, -(two31 : Int) ≤ usizeToI32 n ∧ usizeToI32 n < (two31 : Int)) ∧
    (∀ n : Nat, usizeToI32 n % (two32 : Int) = (n : Int) % (two32 : Int)) ∧
    (∀ n : Nat, usizeToI32 n < 0 ↔ two31 ≤ n % two32) ∧
    (∀ (r : Result) (row column : Nat),
      Result.is_null r row column =
        (PQgetisnull r.result (usizeToI32 row) (usizeToI32 column) == 1)) := by
  have harith : ∀ n : Nat, n % two32 < two32 := fun n => Nat.mod_lt n (by decide)
  refine ⟨?_, ?_, ?_, fun _ _ _ => rfl⟩
  · intro n
    have := harith n
    unfold usizeToI32 two31 two32 at *
    split <;> omega
  · intro n
    unfold usizeToI32
    split
    · push_cast
      exact Int.emod_emod_of_dvd _ dvd_rfl
    · push_cast
      rw [Int.emod_sub_cancel]
      exact Int.emod_emod_of_dvd _ dvd_rfl
  · intro n
    have := harith n
    unfold usizeToI32 two31 two32 at *
    split <;> omega

/-- Claim C3: every mutating operation (`copy`, `set_attrs`, `set_value`,
`set_single_row_mode`) returns a two-valued success/failure outcome, failing
exactly when the native call signals failure (a null pointer or a zero
return code), with no structured error code attached to the failure
value. -/
theorem mutating_two_valued :
    (∀ (r : Result) (flags : Int) (nativeRaw : Option PGresult),
      (Result.copy r flags nativeRaw = Except.error ()) ↔ nativeRaw = none) ∧
    (∀ (r : Result) (attrs : List Attribute) (nativeSuccess : Int),
      (Result.set_attrs r attrs nativeSuccess = Except.error ()) ↔
        nativeSuccess = 0) ∧
    (∀ (r : Result) (tuple field : Nat) (v : Option String)
      (nativeSuccess : Int) (e : Except Unit Unit),
      Result.set_value r tuple field v nativeSuccess = some e →
      ((e = Except.error ()) ↔ nativeSuccess = 0)) ∧
    (∀ (c : Connection) (nativeSuccess : Int),
      nativeSuccess = 0 ∨ nativeSuccess = 1 →
      ((Connection.set_single_row_mode c nativeSuccess =
          Except.error Error.Unknow) ↔ nativeSuccess = 0)) ∧
    (∀ (c : Connection) (nativeSuccess : Int) (e : Error),
      Connection.set_single_row_mode c nativeSuccess = Except.error e →
      e = Error.Unknow) := by
  refine ⟨?_, ?_, ?_, ?_, ?_⟩
  · intro r flags nativeRaw
    cases nativeRaw <;> simp [Result.copy]
  · intro r attrs nativeSuccess
    by_cases h : nativeSuccess = 0 <;> simp [Result.set_attrs, h]
  · intro r tuple field v nativeSuccess e he
    cases hargs : set_value_args v with
    | none => simp [Result.set_value, hargs] at he
    | some a =>
      simp [Result.set_value, hargs] at he
      by_cases h : nativeSuccess = 0 <;> simp [h] at he ⊢ <;> simp [← he]
  · intro c nativeSuccess h
    rcases h with h | h <;> subst h <;> simp [Connection.set_single_row_mode]
  · intro c nativeSuccess e he
    cases e
    rfl

/-- Witness for C3: with a zero native return code, `set_single_row_mode`
fails with the payload-free `Error::Unknow`, and a `set_value` call that
reached the native setter fails exactly on the zero code. -/
theorem mutating_two_valued_witness :
    (Connection.set_single_row_mode ⟨0⟩ 0 = Except.error Error.Unknow) ∧
    ((Except.error () : Except Unit Unit) = Except.error () ↔ (0 : Int) = 0) :=
  ⟨(mutating_two_valued.2.2.2.1 ⟨0⟩ 0 (Or.inl rfl)).mpr rfl,
   mutating_two_valued.2.2.1 sampleResult 0 0 none 0 (Except.error ()) rfl⟩

/-- Claim C4: `field_number` returns `None` exactly when the native lookup
returns `-1` (name unmatched), and `Some` of the matching column index
otherwise; it never raises an error. -/
theorem field_number_not_found (r : Result) (name : String) (nativeNumber : Int)
    (hlo : -1 ≤ nativeNumber) (hhi : nativeNumber < (two31 : Nat)) :
    (Result.field_number r name nativeNumber = none ↔ nativeNumber = -1) ∧
    (0 ≤ nativeNumber →
      Result.field_number r name nativeNumber = some nativeNumber.toNat) := by
  constructor
  · by_cases h : nativeNumber = -1 <;> simp [Result.field_number, h]
  · intro h0
    have hne : nativeNumber ≠ -1 := by omega
    have hlt : nativeNumber < (two64 : Nat) := by
      have : (two31 : Nat) < ((two64 : Nat) : Int) := by decide
      omega
    simp [Result.field_number, hne, i32AsUsize_eq_toNat nativeNumber h0 hlt]

/-- Witness for C4: native `-1` maps to `none`, native `3` maps to
`some 3`. -/
theorem field_number_not_found_witness :
    Result.field_number sampleResult "a" (-1) = none ∧
    Result.field_number sampleResult "a" 3 = some 3 :=
  ⟨(field_number_not_found sampleResult "a" (-1) (by decide) (by decide)).1.mpr
      rfl,
   (field_number_not_found sampleResult "a" 3 (by decide) (by decide)).2
      (by decide)⟩

/-- Claim C5: `field_size` returns `None` exactly when the native size is
negative (variable-length) and `Some` of the size otherwise — so a zero size
is `Some 0`, not `None` — and `field_mod` likewise returns `None` exactly
when the native modifier is negative and `Some` of it otherwise. -/
theorem field_size_mod_distinct (r : Result) (column : Nat) (nativeRaw : Int)
    (hhi : nativeRaw < (two31 : Nat)) :
    (Result.field_size r column nativeRaw = none ↔ nativeRaw < 0) ∧
    (0 ≤ nativeRaw →
      Result.field_size r column nativeRaw = some nativeRaw.toNat) ∧
    (Result.field_mod r column nativeRaw = none ↔ nativeRaw < 0) ∧
    (0 ≤ nativeRaw → Result.field_mod r column nativeRaw = some nativeRaw) := by
  refine ⟨?_, ?_, ?_, ?_⟩
  · by_cases h : nativeRaw < 0 <;> simp [Result.field_size, h]
  · intro h0
    have hlt : nativeRaw < (two64 : Nat) := by
      have : (two31 : Nat) < ((two64 : Nat) : Int) := by decide
      omega
    simp [Result.field_size, Int.not_lt.mpr h0,
      i32AsUsize_eq_toNat nativeRaw h0 hlt]
  · by_cases h : nativeRaw < 0 <;> simp [Result.field_mod, h]
  · intro h0
    simp [Result.field_mod, Int.not_lt.mpr h0]

/-- Witness for C5: a zero native size yields `some 0`, not `none`, while a
negative native modifier yields `none`. -/
theorem field_size_mod_distinct_witness :
    Result.field_size sampleResult 0 0 = some 0 ∧
    Result.field_mod sampleResult 0 (-1) = none :=
  ⟨(field_size_mod_distinct sampleResult 0 0 (by decide)).2.1 (by decide),
   (field_size_mod_distinct sampleResult 0 (-1) (by decide)).2.2.1.mpr
      (by decide)⟩

/-- Claim C6: the error accessors never produce an error outcome: an empty
or absent native message maps to `None`, a present (nonempty) message maps
to `Some` of its text. -/
theorem error_accessors_absent (r : Result) :
    (Result.error_message r = none ↔ PQresultErrorMessage r.result = "") ∧
    (PQresultErrorMessage r.result ≠ "" →
      Result.error_message r = some (PQresultErrorMessage r.result)) ∧
    (∀ f : ErrorField,
      (Result.error_field r f = none ↔
        (PQresultErrorField r.result f = none ∨
          PQresultErrorField r.result f = some "")) ∧
      (∀ s, PQresultErrorField r.result f = some s → s ≠ "" →
        Result.error_field r f = some s)) := by
  refine ⟨?_, ?_, ?_⟩
  · simp [Result.error_message, ffiToOptionString, String.isEmpty_iff]
  · intro h
    simp [Result.error_message, ffiToOptionString, String.isEmpty_iff, h]
  · intro f
    constructor
    · cases hf : PQresultErrorField r.result f with
      | none => simp [Result.error_field, ffiToOptionString, hf]
      | some s =>
        simp [Result.error_field, ffiToOptionString, hf, String.isEmpty_iff]
    · intro s hf hs
      simp [Result.error_field, ffiToOptionString, hf, String.isEmpty_iff, hs]

/-- Witness for C6: the empty message of `sampleResult` maps to `none`; the
present message `"boom"` and error field `"ERROR"` of `errResult` map to
`some`; its empty error field maps to `none`. -/
theorem error_accessors_absent_witness :
    Result.error_message sampleResult = none ∧
    Result.error_message errResult = some "boom" ∧
    Result.error_field errResult 67 = some "ERROR" ∧
    Result.error_field errResult 0 = none :=
  ⟨(error_accessors_absent sampleResult).1.mpr rfl,
   (error_accessors_absent errResult).2.1 (by decide),
   ((error_accessors_absent errResult).2.2 67).2 "ERROR" rfl (by decide),
   ((error_accessors_absent errResult).2.2 0).1.mpr (Or.inr rfl)⟩

/-- Claim C7: the native `PQclear` release routine is invoked exactly once
per handle lifetime, by `Drop` and by no other method: whatever sequence of
non-drop operations the owner runs before destruction, the lifetime's native
call trace contains `PQclear` exactly once, at the end. -/
theorem release_exactly_once :
    (nativeCalls Method.drop = [NativeFn.PQclear]) ∧
    (∀ m : Method, m ≠ Method.drop → NativeFn.PQclear ∉ nativeCalls m) ∧
    (∀ ops : List Method, Method.drop ∉ ops →
      (lifetimeCalls ops).count NativeFn.PQclear = 1) := by
  have hmem : ∀ m : Method, m ≠ Method.drop → NativeFn.PQclear ∉ nativeCalls m := by
    intro m hm
    cases m <;> first | exact absurd rfl hm | decide
  refine ⟨rfl, hmem, ?_⟩
  intro ops h
  induction ops with
  | nil => decide
  | cons m ops ih =>
    rw [List.mem_cons, not_or] at h
    have hstep : lifetimeCalls (m :: ops) = nativeCalls m ++ lifetimeCalls ops := by
      simp [lifetimeCalls]
    rw [hstep, List.count_append, ih h.2,
      List.count_eq_zero.mpr (hmem m (fun he => h.1 he.symm))]

/-- Witness for C7: a lifetime that constructs, reads status and a value,
mutates a cell, and is then dropped clears the native resource exactly
once. -/
theorem release_exactly_once_witness :
    (lifetimeCalls
      [Method.new, Method.status, Method.value, Method.set_value]).count
      NativeFn.PQclear = 1 :=
  release_exactly_once.2.2
    [Method.new, Method.status, Method.value, Method.set_value] (by decide)

/-- Claim C8: `set_value` with a present value panics exactly when the value
contains an interior NUL byte; without one the conversion succeeds and the
call proceeds to the native setter; an absent value is passed as a null
pointer with length `-1` and never panics. -/
theorem set_value_nul_panic :
    (∀ (r : Result) (tuple field : Nat) (v : String) (nativeSuccess : Int),
      Result.set_value r tuple field (some v) nativeSuccess = none ↔
        hasInteriorNul v = true) ∧
    (∀ (r : Result) (tuple field : Nat) (v : String) (nativeSuccess : Int),
      hasInteriorNul v = false →
      Result.set_value r tuple field (some v) nativeSuccess =
        some (if nativeSuccess = 0 then Except.error () else Except.ok ())) ∧
    (set_value_args none = some (none, -1)) ∧
    (∀ (r : Result) (tuple field : Nat) (nativeSuccess : Int),
      Result.set_value r tuple field none nativeSuccess ≠ none) := by
  refine ⟨?_, ?_, rfl, ?_⟩
  · intro r tuple field v nativeSuccess
    by_cases h : hasInteriorNul v <;>
      simp [Result.set_value, set_value_args, h]
  · intro r tuple field v nativeSuccess h
    simp [Result.set_value, set_value_args, h]
  · intro r tuple field nativeSuccess
    simp [Result.set_value, set_value_args]

/-- Witness for C8: a value holding a NUL byte panics; a NUL-free value
reaches the native setter and succeeds on a nonzero return code. -/
theorem set_value_nul_panic_witness :
    Result.set_value sampleResult 0 0 (some "a\x00") 1 = none ∧
    Result.set_value sampleResult 0 0 (some "ok") 1 =
      some (if (1 : Int) = 0 then Except.error () else Except.ok ()) :=
  ⟨(set_value_nul_panic.1 sampleResult 0 0 "a\x00" 1).mpr (by decide),
   set_value_nul_panic.2.1 sampleResult 0 0 "ok" 1 (by decide)⟩

end Libpq
